import Mathlib

/-!
Verification of the Streamlit crypto-price dashboard (`src/app.py`).

The file shallowly embeds the pure content of the app: JSON values as an
inductive type, Python numbers as `PyNum` (ints vs floats, with float
arithmetic idealized over `ℚ`), the credential file and `authenticate`,
the two fetchers (`get_crypto_data`, `get_historical_data`) over an
abstract HTTP outcome, the metric/report formatting of
`render_coin_details`, the dual-trace chart index partition, the session
state dictionary with login/logout/dispatch, and the TTL memoization
supplied by the UI framework (modelled from the spec).
-/

/-- A Python number as produced by JSON decoding: integer literals decode to
`int`, decimal literals to `float`.  Float values are idealized as exact
rationals; every concrete value used in the theorems below is an integer,
where the idealization is exact. -/
inductive PyNum
  | int (z : ℤ)
  | float (q : ℚ)
deriving DecidableEq

/-- Rational value of a Python number. -/
def PyNum.toRat : PyNum → ℚ
  | .int z => (z : ℚ)
  | .float q => q

/-- Round-half-to-even on rationals, the idealization of Python `round`
applied to a float. -/
def roundHalfEven (q : ℚ) : ℤ :=
  let f : ℤ := ⌊q⌋
  let r : ℚ := q - (f : ℚ)
  if r < 1 / 2 then f
  else if 1 / 2 < r then f + 1
  else if f % 2 = 0 then f else f + 1

/-- Python `round(x, 2)`: on an `int` it returns the `int` unchanged; on a
float it rounds to two decimal places (half to even, idealized over `ℚ`). -/
def pyRound2 : PyNum → PyNum
  | .int z => .int z
  | .float q => .float ((roundHalfEven (q * 100) : ℚ) / 100)

/-- A JSON value.  Numbers carry their Python decoding (`int` vs `float`). -/
inductive Json
  | null
  | bool (b : Bool)
  | num (v : PyNum)
  | str (s : String)
  | arr (elems : List Json)
  | obj (fields : List (String × Json))

/-- Lookup in a decoded JSON object (Python `dict.__getitem__` /
`dict.get`).  Keys of the objects this app consumes are distinct, so the
first match is the dict entry. -/
def dictGet : List (String × Json) → String → Option Json
  | [], _ => none
  | (k, v) :: rest, key => if key = k then some v else dictGet rest key

-- ------------------------------------------------------------------
-- Decimal rendering: the Python format spec `{x:,}` (thousands
-- separators, no forced decimal places)
-- ------------------------------------------------------------------

/-- One decimal digit as a string. -/
def digitStr (d : ℕ) : String :=
  match d with
  | 0 => "0" | 1 => "1" | 2 => "2" | 3 => "3" | 4 => "4"
  | 5 => "5" | 6 => "6" | 7 => "7" | 8 => "8" | 9 => "9"
  | _ => ""

/-- Decimal rendering of `n < 1000` without padding. -/
def natBase (n : ℕ) : String :=
  if n < 10 then digitStr n
  else if n < 100 then digitStr (n / 10) ++ digitStr (n % 10)
  else digitStr (n / 100) ++ digitStr (n / 10 % 10) ++ digitStr (n % 10)

/-- Decimal rendering of a three-digit group, zero padded to width 3. -/
def pad3 (n : ℕ) : String :=
  if n < 10 then "00" ++ digitStr n
  else if n < 100 then "0" ++ digitStr (n / 10) ++ digitStr (n % 10)
  else digitStr (n / 100) ++ digitStr (n / 10 % 10) ++ digitStr (n % 10)

/-- Decimal rendering of a natural number with `,` thousands separators,
as produced by the Python format spec `{n:,}`. -/
def natGrouped (n : ℕ) : String :=
  if _h : n < 1000 then natBase n
  else natGrouped (n / 1000) ++ "," ++ pad3 (n % 1000)
termination_by n
decreasing_by exact Nat.div_lt_self (by omega) (by omega)

/-- Python `f"{z:,}"` for an `int`. -/
def formatInt (z : ℤ) : String :=
  (if z < 0 then "-" else "") ++ natGrouped z.natAbs

/-- Fractional digits of a nonnegative rational whose denominator divides
100 (the only floats formatted by the app, since they pass through
`round(x, 2)` first): Python float rendering shows `.0` for an integral
float and drops a trailing zero in the hundredths place. -/
def fracDigits (q : ℚ) : String :=
  let k : ℕ := ((q - (⌊q⌋ : ℚ)) * 100).num.toNat
  if k = 0 then ".0"
  else if k % 10 = 0 then "." ++ digitStr (k / 10)
  else "." ++ digitStr (k / 10) ++ digitStr (k % 10)

/-- Python `f"{x:,}"` for a float whose denominator divides 100,
idealized over `ℚ`. -/
def formatFloat (q : ℚ) : String :=
  (if q < 0 then "-" else "") ++ natGrouped (⌊|q|⌋.toNat) ++ fracDigits |q|

/-- Python `f"{x:,}"` on the two kinds of numbers the app formats. -/
def formatPyNum : PyNum → String
  | .int z => formatInt z
  | .float q => formatFloat q

-- ------------------------------------------------------------------
-- render_coin_details (src/app.py lines 132-181): field extraction,
-- truthiness coercion, metric and report formatting
-- ------------------------------------------------------------------

/-- Python truthiness of the value obtained from a `dict.get(key, None)`
chain: `None` (absent key or JSON `null`) is falsy, numbers are falsy
exactly at zero, strings/lists/dicts are falsy exactly when empty. -/
def truthyJson : Option Json → Bool
  | Option.none => false
  | Option.some Json.null => false
  | Option.some (Json.bool b) => b
  | Option.some (Json.num (PyNum.int z)) => decide (z ≠ 0)
  | Option.some (Json.num (PyNum.float q)) => decide (q ≠ 0)
  | Option.some (Json.str s) => decide (s ≠ "")
  | Option.some (Json.arr xs) => !xs.isEmpty
  | Option.some (Json.obj fs) => !fs.isEmpty

/-- Python `round(x, 2)` on a raw field value: raises `TypeError` unless
the value is a number. -/
def pyRoundField : Option Json → Except String PyNum
  | Option.some (Json.num v) => Except.ok (pyRound2 v)
  | _ => Except.error "TypeError: type not supported by round"

/-- Line 138/139/140 of src/app.py: `x = round(x, 2) if x else 0`.
The truthiness guard means a falsy field (absent, null, or zero) becomes
the int `0` without `round` ever being applied. -/
def coerceField (o : Option Json) : Except String PyNum :=
  if truthyJson o then pyRoundField o else Except.ok (PyNum.int 0)

/-- Lines 133-135 of src/app.py: `crypto_data.get(coin_id, {}).get(field, None)`.
A missing coin yields `{}` whose `.get` yields `None`; a coin bound to a
non-object raises `AttributeError` (no `.get`). -/
def coinField (crypto_data : List (String × Json)) (coin_id field : String) :
    Except String (Option Json) :=
  match dictGet crypto_data coin_id with
  | none => Except.ok none
  | some (Json.obj fs) => Except.ok (dictGet fs field)
  | some _ => Except.error "AttributeError: no attribute get"

/-- Lines 145-149 of src/app.py: the generated report sentence. -/
def report_text (coin_name : String) (price volume market_cap : PyNum) : String :=
  "The current price of " ++ coin_name ++ " is $" ++ formatPyNum price ++
  ". The 24-hour trading volume is $" ++ formatPyNum volume ++
  ", and the market capitalization is $" ++ formatPyNum market_cap ++ "."

/-- The textual artifacts produced by `render_coin_details`: the title,
the three metric widget values, and the report sentence. -/
structure RenderedView where
  title : String
  priceMetric : String
  volumeMetric : String
  marketCapMetric : String
  report : String
deriving DecidableEq

/-- Lines 132-160 of src/app.py: extract the three quote fields from the
API response object, apply the truthiness/rounding coercion, and format
the title, the three `st.metric` values, and the report sentence.
An uncaught Python exception is an `Except.error`. -/
def render_coin_details (coin_id coin_name coin_symbol : String)
    (crypto_data : List (String × Json)) : Except String RenderedView := do
  let rawPrice ← coinField crypto_data coin_id "usd"
  let rawVolume ← coinField crypto_data coin_id "usd_24h_vol"
  let rawCap ← coinField crypto_data coin_id "usd_market_cap"
  let price ← coerceField rawPrice
  let volume ← coerceField rawVolume
  let market_cap ← coerceField rawCap
  Except.ok
    { title := coin_name ++ " (" ++ coin_symbol ++ ")"
      priceMetric := "$" ++ formatPyNum price
      volumeMetric := "$" ++ formatPyNum volume
      marketCapMetric := "$" ++ formatPyNum market_cap
      report := report_text coin_name price volume market_cap }

-- ------------------------------------------------------------------
-- Quotes as the spec's data model (three nullable decimal fields)
-- ------------------------------------------------------------------

/-- One quote field as delivered by the API: absent from the object,
JSON `null`, or a number. -/
inductive QField
  | absent
  | null
  | num (v : PyNum)
deriving DecidableEq

/-- The raw Python value `dict.get` produces for this field. -/
def QField.raw : QField → Option Json
  | .absent => none
  | .null => some Json.null
  | .num v => some (Json.num v)

/-- The JSON-object entries this field contributes under key `key`. -/
def QField.entries (key : String) : QField → List (String × Json)
  | .absent => []
  | .null => [(key, Json.null)]
  | .num v => [(key, Json.num v)]

/-- A Quote: current price, 24-hour volume, market capitalization, each
nullable (spec section 3). -/
structure Quote where
  usd : QField
  usd_24h_vol : QField
  usd_market_cap : QField
deriving DecidableEq

/-- The JSON object for one coin built from a quote. -/
def Quote.json (q : Quote) : List (String × Json) :=
  QField.entries "usd" q.usd ++ QField.entries "usd_24h_vol" q.usd_24h_vol ++
    QField.entries "usd_market_cap" q.usd_market_cap

/-- An API response mapping `"bitcoin"` to the given quote. -/
def bitcoinResponse (q : Quote) : List (String × Json) :=
  [("bitcoin", Json.obj q.json)]

/-- The mocked quote of the end-to-end scenario:
`{"usd": 50000, "usd_24h_vol": 1000000, "usd_market_cap": 900000000000}`. -/
def bitcoinQuote : Quote :=
  { usd := QField.num (PyNum.int 50000)
    usd_24h_vol := QField.num (PyNum.int 1000000)
    usd_market_cap := QField.num (PyNum.int 900000000000) }

-- ------------------------------------------------------------------
-- Credential file, load_users (lines 22-31), authenticate (lines 36-40)
-- ------------------------------------------------------------------

/-- The states of the credential file `user.json`: missing
(`FileNotFoundError`), present but malformed (any other exception while
reading/decoding), or a decoded JSON object of username/password pairs
(keys distinct, as in a decoded dict). -/
inductive CredFile
  | missing
  | malformed
  | valid (entries : List (String × String))

/-- Lookup in the decoded credential dict (first match; keys are
distinct). -/
def dictLookupStr : List (String × String) → String → Option String
  | [], _ => none
  | (k, v) :: rest, key => if key = k then some v else dictLookupStr rest key

/-- Lines 22-31 of src/app.py: `load_users` returns the decoded dict, or
`{}` after showing an error (`st.error`) when the file is missing or
unreadable.  The Bool records whether the error message was shown. -/
def load_users : CredFile → List (String × String) × Bool
  | CredFile.missing => ([], true)
  | CredFile.malformed => ([], true)
  | CredFile.valid entries => (entries, false)

/-- Lines 36-40 of src/app.py: membership test followed by exact string
comparison of the stored password. -/
def authenticate (file : CredFile) (username password : String) : Bool :=
  match dictLookupStr (load_users file).1 username with
  | some pw => decide (pw = password)
  | none => false

-- ------------------------------------------------------------------
-- Fetchers (lines 45-71) over an abstract HTTP outcome
-- ------------------------------------------------------------------

/-- Outcome of the single outbound `requests.get`: a transport error
(exception from `requests.get` itself), or a response with a status code
and a body that either parses as JSON (`some`) or not (`none`). -/
inductive HttpResult
  | transportError (msg : String)
  | success (status : ℕ) (body : Option Json)

/-- `response.raise_for_status()` raises exactly for 4xx and 5xx codes. -/
def errStatus (s : ℕ) : Bool :=
  decide (400 ≤ s) && decide (s < 600)

/-- One row of `data["prices"]`: a two-element array `[unixMillis, price]`
of numbers; anything else makes the DataFrame/`to_datetime` pipeline
raise. -/
def parseRow : Json → Option (ℚ × ℚ)
  | Json.arr [Json.num t, Json.num p] => some (t.toRat, p.toRat)
  | _ => none

/-- Lines 65-67 of src/app.py: `data["prices"]` indexed out of the decoded
body and shaped into the (timestamp, price) table; any failure (body not
an object, key missing, rows not numeric pairs) raises inside the `try`. -/
def parseHistory (j : Json) : Option (List (ℚ × ℚ)) :=
  match j with
  | Json.obj fs =>
    match dictGet fs "prices" with
    | some (Json.arr rows) => rows.mapM parseRow
    | _ => none
  | _ => none

/-- Failure taxonomy of `get_crypto_data`: transport error, HTTP error
status, or JSON parse failure. -/
def fetchFailed : HttpResult → Bool
  | HttpResult.transportError _ => true
  | HttpResult.success s body => errStatus s || body.isNone

/-- Failure taxonomy of `get_historical_data`: additionally, failure to
shape the decoded body into the price table. -/
def histFailed : HttpResult → Bool
  | HttpResult.transportError _ => true
  | HttpResult.success s body =>
    errStatus s ||
      match body with
      | none => true
      | some j => (parseHistory j).isNone

/-- Lines 46-54 of src/app.py: on any failure inside the `try`, show an
error and return `{}`; otherwise return the decoded body.  The Bool
records whether `st.error` was shown. -/
def get_crypto_data (r : HttpResult) : Json × Bool :=
  match r with
  | HttpResult.transportError _ => (Json.obj [], true)
  | HttpResult.success s body =>
    if errStatus s then (Json.obj [], true)
    else
      match body with
      | none => (Json.obj [], true)
      | some j => (j, false)

/-- Lines 57-71 of src/app.py: on any failure inside the `try`, show an
error and return an empty DataFrame; otherwise the (timestamp, price)
rows.  The Bool records whether `st.error` was shown. -/
def get_historical_data (r : HttpResult) : List (ℚ × ℚ) × Bool :=
  match r with
  | HttpResult.transportError _ => ([], true)
  | HttpResult.success s body =>
    if errStatus s then ([], true)
    else
      match body with
      | none => ([], true)
      | some j =>
        match parseHistory j with
        | none => ([], true)
        | some rows => (rows, false)

-- ------------------------------------------------------------------
-- Session state, login/logout, main dispatch, timezone resolver
-- ------------------------------------------------------------------

/-- A value stored in `st.session_state` by this app. -/
inductive SVal
  | bool (b : Bool)
  | str (s : String)
deriving DecidableEq

/-- `st.session_state`: a string-keyed dictionary. -/
abbrev SessionState := List (String × SVal)

/-- Dictionary lookup in the session state. -/
def lookupS : SessionState → String → Option SVal
  | [], _ => none
  | (k, v) :: rest, key => if key = k then some v else lookupS rest key

/-- Python `key in st.session_state`. -/
def hasKey (ss : SessionState) (k : String) : Bool :=
  (lookupS ss k).isSome

/-- Dictionary assignment `st.session_state[k] = v`. -/
def setKey (ss : SessionState) (k : String) (v : SVal) : SessionState :=
  (k, v) :: ss.filter fun e => e.1 != k

/-- Line 119 of src/app.py: `st.session_state.clear()` on logout. -/
def logout (_ss : SessionState) : SessionState := []

/-- The two views the app can render. -/
inductive View
  | login
  | dashboard
deriving DecidableEq

/-- Lines 241-245 of src/app.py: `main` shows the login page when
`'authenticated' not in st.session_state`, else the dashboard. -/
def main_dispatch (ss : SessionState) : View :=
  if hasKey ss "authenticated" then View.dashboard else View.login

/-- Lines 103-108 of src/app.py: the login button handler.  On successful
authentication it sets `st.session_state.authenticated = True`; otherwise
it shows "Invalid credentials" (the Bool records that message). -/
def login_submit (file : CredFile) (username password : String)
    (ss : SessionState) : SessionState × Bool :=
  if authenticate file username password then
    (setKey ss "authenticated" (SVal.bool true), false)
  else (ss, true)

/-- Lines 85-94 of src/app.py: when `"timezone"` is not in the session
state, emit the timezone-requesting script and return `"UTC"`; otherwise
return the stored value.  The Bool records whether the script was
emitted. -/
def get_user_timezone (ss : SessionState) : SVal × Bool :=
  match lookupS ss "timezone" with
  | none => (SVal.str "UTC", true)
  | some v => (v, false)

-- ------------------------------------------------------------------
-- Dual-trace chart partition (lines 204-206)
-- ------------------------------------------------------------------

/-- Line 204 of src/app.py: `df["price"].diff()` — the first difference
of the price series, `NaN` (here `none`) at position 0. -/
def priceDiff : List ℚ → List (Option ℚ)
  | [] => []
  | x :: tail => none :: List.zipWith (fun cur prev => some (cur - prev)) tail (x :: tail)

/-- `price_diff > 0` in pandas: `NaN` compares false. -/
def isUp : Option ℚ → Bool
  | none => false
  | some d => decide (0 < d)

/-- `price_diff < 0` in pandas: `NaN` compares false. -/
def isDown : Option ℚ → Bool
  | none => false
  | some d => decide (d < 0)

/-- Line 205 of src/app.py: positions selected into the green "Price Up"
trace. -/
def up_indices (prices : List ℚ) : List ℕ :=
  (List.range prices.length).filter fun i => isUp ((priceDiff prices).getD i none)

/-- Line 206 of src/app.py: positions selected into the red "Price Down"
trace. -/
def down_indices (prices : List ℚ) : List ℕ :=
  (List.range prices.length).filter fun i => isDown ((priceDiff prices).getD i none)

-- ------------------------------------------------------------------
-- TTL memoization of the fetchers
-- ------------------------------------------------------------------

/-- Modelled from the spec: the `st.cache_data` decorator's cache is
missing from src (it is supplied by the UI framework); per the spec it is
a process-wide store of results keyed by the call's input arguments, each
entry stamped with its fetch time and expiring after the fixed TTL. -/
structure CacheState (α β : Type) where
  entries : List (α × β × ℕ)

/-- Modelled from the spec: a cache entry answers a call when its
arguments match and its age is below the TTL. -/
def cacheLookup {α β : Type} [DecidableEq α] (ttl : ℕ) (s : CacheState α β)
    (now : ℕ) (a : α) : Option β :=
  (s.entries.find? fun e => decide (e.1 = a) && decide (now < e.2.2 + ttl)).map
    fun e => e.2.1

/-- Modelled from the spec: one memoized call at time `now`.  A hit
returns the cached value with no outbound request; a miss calls the
underlying function, stores the result, and records that a request was
issued (the Bool). -/
def cachedCall {α β : Type} [DecidableEq α] (ttl : ℕ) (f : α → β)
    (s : CacheState α β) (now : ℕ) (a : α) : β × CacheState α β × Bool :=
  match cacheLookup ttl s now a with
  | some v => (v, s, false)
  | none => (f a, ⟨(a, f a, now) :: s.entries⟩, true)

/-- Two successive memoized calls with the same arguments at times
`t1` and `t2`: both values and both request flags. -/
def twoCalls {α β : Type} [DecidableEq α] (ttl : ℕ) (f : α → β)
    (s : CacheState α β) (t1 t2 : ℕ) (a : α) : β × β × Bool × Bool :=
  let r1 := cachedCall ttl f s t1 a
  let r2 := cachedCall ttl f r1.2.1 t2 a
  (r1.1, r2.1, r1.2.2, r2.2.2)

/-- A cache state is coherent with `f` when every stored value is the
value of `f` at the stored arguments (true of every state reachable by
`cachedCall`s of a fixed `f`). -/
def Coherent {α β : Type} (f : α → β) (s : CacheState α β) : Prop :=
  ∀ e ∈ s.entries, e.2.1 = f e.1

/-- Line 45 of src/app.py: `@st.cache_data(ttl=60)` on `get_crypto_data`. -/
def get_crypto_data_ttl : ℕ := 60

/-- Line 56 of src/app.py: `@st.cache_data(ttl=60)` on `get_historical_data`. -/
def get_historical_data_ttl : ℕ := 60

-- ------------------------------------------------------------------
-- Theorems
-- ------------------------------------------------------------------

/-- C4: `authenticate` returns true iff the credential object binds the
exact key `username` to the exact string `password`; with a single-entry
credential file every mismatch — including a mere case difference in
either string — yields false. -/
theorem authenticate_exact_match (es : List (String × String)) (u p u2 p2 : String) :
    (authenticate (CredFile.valid es) u p = true ↔ dictLookupStr es u = some p) ∧
    (authenticate (CredFile.valid [(u, p)]) u2 p2 = true ↔ u2 = u ∧ p2 = p) := by
  constructor
  · cases h : dictLookupStr es u with
    | none => simp [authenticate, load_users, h]
    | some pw => simp [authenticate, load_users, h, eq_comm]
  · by_cases h : u2 = u
    · simp [authenticate, load_users, dictLookupStr, h, eq_comm]
    · simp [authenticate, load_users, dictLookupStr, h]

/-- C9: a missing or malformed credential file loads as the empty
credential mapping with a visible error, and `authenticate` then returns
false for every username/password pair, without raising. -/
theorem missing_or_malformed_credentials (u p : String) :
    load_users CredFile.missing = ([], true) ∧
    load_users CredFile.malformed = ([], true) ∧
    authenticate CredFile.missing u p = false ∧
    authenticate CredFile.malformed u p = false :=
  ⟨rfl, rfl, rfl, rfl⟩

/-- C8: logout clears the whole session state in one step, so the
authenticated key is gone and the main dispatch renders the login view
from the resulting state. -/
theorem logout_resets_to_login (ss : SessionState) :
    logout ss = [] ∧ hasKey (logout ss) "authenticated" = false ∧
    main_dispatch (logout ss) = View.login :=
  ⟨rfl, rfl, rfl⟩

/-- C10: the main dispatch tests only the presence of the key
`authenticated` — any stored value, including `False`, selects the
dashboard, and the login view is selected iff the key is absent; the only
writer (the login handler) stores the value `True` under that key. -/
theorem dispatch_tests_key_presence (ss : SessionState) (v : SVal)
    (file : CredFile) (u p : String) :
    main_dispatch (("authenticated", v) :: ss) = View.dashboard ∧
    (main_dispatch ss = View.dashboard ↔ hasKey ss "authenticated" = true) ∧
    (main_dispatch ss = View.login ↔ hasKey ss "authenticated" = false) ∧
    (authenticate file u p = true →
      lookupS (login_submit file u p ss).1 "authenticated" = some (SVal.bool true)) := by
  refine ⟨?_, ?_, ?_, ?_⟩
  · simp [main_dispatch, hasKey, lookupS]
  · cases h : hasKey ss "authenticated" <;> simp [main_dispatch, h]
  · cases h : hasKey ss "authenticated" <;> simp [main_dispatch, h]
  · intro h
    simp [login_submit, h, setKey, lookupS]

/-- Witness for C10 at concrete inputs: a session state whose
`authenticated` key holds `False` still dispatches to the dashboard, and
a successful login stores `True` under the key. -/
theorem dispatch_tests_key_presence_witness :
    main_dispatch [("authenticated", SVal.bool false)] = View.dashboard ∧
    lookupS (login_submit (CredFile.valid [("alice", "pw")]) "alice" "pw" []).1
      "authenticated" = some (SVal.bool true) := by
  have h := dispatch_tests_key_presence [] (SVal.bool false)
    (CredFile.valid [("alice", "pw")]) "alice" "pw"
  exact ⟨h.1, h.2.2.2 (by decide)⟩

/-- C6: the timezone resolver returns the stored client timezone when the
session state holds one, and the fixed fallback `"UTC"` exactly when none
has been received; the timezone-requesting script is emitted only in the
latter case, so the resolution is requested once per session. -/
theorem timezone_resolution (ss : SessionState) :
    get_user_timezone ss =
      ((lookupS ss "timezone").getD (SVal.str "UTC"),
        (lookupS ss "timezone").isNone) := by
  cases h : lookupS ss "timezone" <;> simp [get_user_timezone, h]

/-- C5: each fetcher reports a visible error and returns its empty result
(`{}` for quotes, the empty table for history) exactly on its failures —
transport error, HTTP error status, or parse failure — and otherwise
returns the fetched data with no error. -/
theorem fetch_failures_yield_empty (r : HttpResult) :
    (fetchFailed r = true ↔ get_crypto_data r = (Json.obj [], true)) ∧
    (histFailed r = true ↔ get_historical_data r = ([], true)) := by
  cases r with
  | transportError m =>
    simp [fetchFailed, histFailed, get_crypto_data, get_historical_data]
  | success s body =>
    by_cases hs : errStatus s = true
    · simp [fetchFailed, histFailed, get_crypto_data, get_historical_data, hs]
    · cases body with
      | none =>
        simp [fetchFailed, histFailed, get_crypto_data, get_historical_data, hs]
      | some j =>
        cases hp : parseHistory j with
        | none =>
          simp [fetchFailed, histFailed, get_crypto_data, get_historical_data, hs, hp]
        | some rows =>
          simp [fetchFailed, histFailed, get_crypto_data, get_historical_data, hs, hp]

/-- Element access into the zipped first-difference list. -/
theorem zipDiff_getD (tail full : List ℚ) (i : ℕ) (h1 : i < tail.length)
    (h2 : i < full.length) :
    (List.zipWith (fun cur prev => some (cur - prev)) tail full).getD i none =
      some (tail.getD i 0 - full.getD i 0) := by
  induction tail generalizing full i with
  | nil => simp at h1
  | cons a tl ih =>
    cases full with
    | nil => simp at h2
    | cons b fl =>
      cases i with
      | zero => simp
      | succ j =>
        simp only [List.zipWith_cons_cons, List.getD_cons_succ]
        exact ih fl j (by simpa using h1) (by simpa using h2)

/-- Position 0 of the first difference is `NaN`. -/
theorem priceDiff_getD_zero (prices : List ℚ) :
    (priceDiff prices).getD 0 none = none := by
  cases prices <;> rfl

/-- Positions `i + 1` of the first difference hold
`price[i+1] - price[i]`. -/
theorem priceDiff_getD_succ (prices : List ℚ) (i : ℕ) (h : i + 1 < prices.length) :
    (priceDiff prices).getD (i + 1) none =
      some (prices.getD (i + 1) 0 - prices.getD i 0) := by
  cases prices with
  | nil => simp at h
  | cons x tail =>
    simp only [priceDiff, List.getD_cons_succ]
    exact zipDiff_getD tail (x :: tail) i (by simpa using h)
      (by simp only [List.length_cons] at h ⊢; omega)

/-- Membership in the up trace in terms of the first difference. -/
theorem mem_up_indices_iff (prices : List ℚ) (i : ℕ) :
    i ∈ up_indices prices ↔
      i < prices.length ∧ isUp ((priceDiff prices).getD i none) = true := by
  simp [up_indices, List.mem_filter, List.mem_range]

/-- Membership in the down trace in terms of the first difference. -/
theorem mem_down_indices_iff (prices : List ℚ) (i : ℕ) :
    i ∈ down_indices prices ↔
      i < prices.length ∧ isDown ((priceDiff prices).getD i none) = true := by
  simp [down_indices, List.mem_filter, List.mem_range]

/-- C1: in the dual-trace chart, a point `i ≥ 1` belongs to the "up"
trace iff its price strictly exceeds the previous price, to the "down"
trace iff it is strictly below it, and to neither when the two are equal;
point 0 belongs to neither trace. -/
theorem chart_trace_partition (prices : List ℚ) (i : ℕ) :
    (i ∈ up_indices prices ↔
      1 ≤ i ∧ i < prices.length ∧ prices.getD (i - 1) 0 < prices.getD i 0) ∧
    (i ∈ down_indices prices ↔
      1 ≤ i ∧ i < prices.length ∧ prices.getD i 0 < prices.getD (i - 1) 0) := by
  cases i with
  | zero =>
    have h0 := priceDiff_getD_zero prices
    constructor
    · rw [mem_up_indices_iff, h0]
      simp [isUp]
    · rw [mem_down_indices_iff, h0]
      simp [isDown]
  | succ j =>
    by_cases h : j + 1 < prices.length
    · have hd := priceDiff_getD_succ prices j h
      constructor
      · rw [mem_up_indices_iff, hd]
        simp [isUp, h, sub_pos]
      · rw [mem_down_indices_iff, hd]
        simp [isDown, h, sub_neg]
    · constructor
      · rw [mem_up_indices_iff]
        simp [h]
      · rw [mem_down_indices_iff]
        simp [h]

/-- The `usd` entry of a quote's JSON object. -/
theorem dictGet_json_usd (q : Quote) : dictGet q.json "usd" = q.usd.raw := by
  rcases q with ⟨f1, f2, f3⟩
  cases f1 <;> cases f2 <;> cases f3 <;>
    simp [Quote.json, QField.entries, QField.raw, dictGet]

/-- The `usd_24h_vol` entry of a quote's JSON object. -/
theorem dictGet_json_vol (q : Quote) :
    dictGet q.json "usd_24h_vol" = q.usd_24h_vol.raw := by
  rcases q with ⟨f1, f2, f3⟩
  cases f1 <;> cases f2 <;> cases f3 <;>
    simp [Quote.json, QField.entries, QField.raw, dictGet]

/-- The `usd_market_cap` entry of a quote's JSON object. -/
theorem dictGet_json_cap (q : Quote) :
    dictGet q.json "usd_market_cap" = q.usd_market_cap.raw := by
  rcases q with ⟨f1, f2, f3⟩
  cases f1 <;> cases f2 <;> cases f3 <;>
    simp [Quote.json, QField.entries, QField.raw, dictGet]

/-- Coercing a nullable-decimal quote field never raises, and an absent
or null field coerces to the int `0`. -/
theorem coerceField_raw (f : QField) :
    ∃ x, coerceField f.raw = Except.ok x ∧
      ((f = QField.absent ∨ f = QField.null) → x = PyNum.int 0) := by
  cases f with
  | absent => exact ⟨PyNum.int 0, rfl, fun _ => rfl⟩
  | null => exact ⟨PyNum.int 0, rfl, fun _ => rfl⟩
  | num v =>
    refine ⟨if truthyJson (QField.num v).raw then pyRound2 v else PyNum.int 0, ?_, ?_⟩
    · by_cases h : truthyJson (QField.num v).raw = true <;>
        simp [coerceField, pyRoundField, QField.raw, h] <;>
        simp [QField.raw] at h <;> simp [h]
    · intro hh
      rcases hh with hh | hh <;> simp at hh

/-- Evaluation of `render_coin_details` on a one-coin response once the
three field coercions are known. -/
theorem render_bitcoin_response (name sym : String) (q : Quote)
    (xp xv xc : PyNum) (hp : coerceField q.usd.raw = Except.ok xp)
    (hv : coerceField q.usd_24h_vol.raw = Except.ok xv)
    (hc : coerceField q.usd_market_cap.raw = Except.ok xc) :
    render_coin_details "bitcoin" name sym (bitcoinResponse q) =
      Except.ok
        { title := name ++ " (" ++ sym ++ ")"
          priceMetric := "$" ++ formatPyNum xp
          volumeMetric := "$" ++ formatPyNum xv
          marketCapMetric := "$" ++ formatPyNum xc
          report := report_text name xp xv xc } := by
  simp [render_coin_details, bitcoinResponse, coinField, dictGet,
    dictGet_json_usd, dictGet_json_vol, dictGet_json_cap, hp, hv, hc,
    Bind.bind, Except.bind]

/-- The zero metric renders as `$0` — no decimal places. -/
theorem metric_zero_format : "$" ++ formatPyNum (PyNum.int 0) = "$0" := by
  simp [formatPyNum, formatInt, natGrouped, natBase, digitStr]

/-- C2 counterexample: with a null price (and numeric other fields) the
price metric is not the two-decimal `$0.00` the claim requires. -/
theorem null_price_not_two_decimals :
    (render_coin_details "bitcoin" "Bitcoin" "BTC"
        (bitcoinResponse
          { usd := QField.null, usd_24h_vol := QField.num (PyNum.int 5),
            usd_market_cap := QField.num (PyNum.int 7) })).toOption.map
      RenderedView.priceMetric ≠ some "$0.00" := by
  have hr := render_bitcoin_response "Bitcoin" "BTC"
    { usd := QField.null, usd_24h_vol := QField.num (PyNum.int 5),
      usd_market_cap := QField.num (PyNum.int 7) }
    (PyNum.int 0) (PyNum.int 5) (PyNum.int 7) rfl rfl rfl
  rw [hr]
  simp only [Except.toOption, Option.map_some]
  intro h
  have h2 := Option.some.inj h
  rw [metric_zero_format] at h2
  exact absurd h2 (by decide)

/-- C2 (amended): rendering a quote whose fields are nullable decimals
never raises, and every absent or null field is rendered as the
zero-formatted value `$0` — with no decimal places — in its metric. -/
theorem null_or_absent_fields_render_zero (name sym : String) (q : Quote) :
    (∃ view, render_coin_details "bitcoin" name sym (bitcoinResponse q) =
      Except.ok view) ∧
    (q.usd = QField.absent ∨ q.usd = QField.null →
      (render_coin_details "bitcoin" name sym (bitcoinResponse q)).toOption.map
        RenderedView.priceMetric = some "$0") ∧
    (q.usd_24h_vol = QField.absent ∨ q.usd_24h_vol = QField.null →
      (render_coin_details "bitcoin" name sym (bitcoinResponse q)).toOption.map
        RenderedView.volumeMetric = some "$0") ∧
    (q.usd_market_cap = QField.absent ∨ q.usd_market_cap = QField.null →
      (render_coin_details "bitcoin" name sym (bitcoinResponse q)).toOption.map
        RenderedView.marketCapMetric = some "$0") := by
  obtain ⟨xp, hp, hp0⟩ := coerceField_raw q.usd
  obtain ⟨xv, hv, hv0⟩ := coerceField_raw q.usd_24h_vol
  obtain ⟨xc, hc, hc0⟩ := coerceField_raw q.usd_market_cap
  have hr := render_bitcoin_response name sym q xp xv xc hp hv hc
  refine ⟨⟨_, hr⟩, ?_, ?_, ?_⟩
  · intro h
    rw [hr]
    simp only [Except.toOption, Option.map_some, hp0 h, metric_zero_format]
    rfl
  · intro h
    rw [hr]
    simp only [Except.toOption, Option.map_some, hv0 h, metric_zero_format]
    rfl
  · intro h
    rw [hr]
    simp only [Except.toOption, Option.map_some, hc0 h, metric_zero_format]
    rfl

/-- Witness for C2 at the all-null quote: rendering succeeds and all
three metrics show `$0`. -/
theorem null_or_absent_fields_render_zero_witness :
    (∃ view, render_coin_details "bitcoin" "Bitcoin" "BTC"
      (bitcoinResponse
        { usd := QField.null, usd_24h_vol := QField.absent,
          usd_market_cap := QField.null }) = Except.ok view) ∧
    (render_coin_details "bitcoin" "Bitcoin" "BTC"
      (bitcoinResponse
        { usd := QField.null, usd_24h_vol := QField.absent,
          usd_market_cap := QField.null })).toOption.map
      RenderedView.priceMetric = some "$0" ∧
    (render_coin_details "bitcoin" "Bitcoin" "BTC"
      (bitcoinResponse
        { usd := QField.null, usd_24h_vol := QField.absent,
          usd_market_cap := QField.null })).toOption.map
      RenderedView.volumeMetric = some "$0" ∧
    (render_coin_details "bitcoin" "Bitcoin" "BTC"
      (bitcoinResponse
        { usd := QField.null, usd_24h_vol := QField.absent,
          usd_market_cap := QField.null })).toOption.map
      RenderedView.marketCapMetric = some "$0" := by
  have h := null_or_absent_fields_render_zero "Bitcoin" "BTC"
    { usd := QField.null, usd_24h_vol := QField.absent,
      usd_market_cap := QField.null }
  exact ⟨h.1, h.2.1 (Or.inr rfl), h.2.2.1 (Or.inl rfl), h.2.2.2 (Or.inr rfl)⟩

/-- `f"{50000:,}"` is `50,000`. -/
theorem format_fifty_thousand : formatPyNum (PyNum.int 50000) = "50,000" := by
  simp [formatPyNum, formatInt, natGrouped, natBase, pad3, digitStr]

/-- `f"{1000000:,}"` is `1,000,000`. -/
theorem format_one_million : formatPyNum (PyNum.int 1000000) = "1,000,000" := by
  simp [formatPyNum, formatInt, natGrouped, natBase, pad3, digitStr]

/-- `f"{900000000000:,}"` is `900,000,000,000`. -/
theorem format_ninehundred_billion :
    formatPyNum (PyNum.int 900000000000) = "900,000,000,000" := by
  simp [formatPyNum, formatInt, natGrouped, natBase, pad3, digitStr]

/-- C3 counterexample: on the mocked Bitcoin response the price metric is
`$50,000`, not the `$50,000.00` the claim requires. -/
theorem bitcoin_price_missing_decimals :
    (render_coin_details "bitcoin" "Bitcoin" "BTC"
      (bitcoinResponse bitcoinQuote)).toOption.map RenderedView.priceMetric ≠
      some "$50,000.00" := by
  have hr := render_bitcoin_response "Bitcoin" "BTC" bitcoinQuote
    (PyNum.int 50000) (PyNum.int 1000000) (PyNum.int 900000000000) rfl rfl rfl
  rw [hr]
  simp only [Except.toOption, Option.map_some, format_fifty_thousand]
  intro h
  have h2 := Option.some.inj h
  exact absurd h2 (by decide)

/-- C3 (amended): on the mocked API response
`{"bitcoin": {"usd": 50000, "usd_24h_vol": 1000000, "usd_market_cap": 900000000000}}`
the Bitcoin dashboard shows price `$50,000`, volume `$1,000,000` and
market cap `$900,000,000,000` (comma-grouped, without forced decimal
places), and the report sentence contains the three formatted values
verbatim. -/
theorem bitcoin_dashboard_rendering :
    render_coin_details "bitcoin" "Bitcoin" "BTC" (bitcoinResponse bitcoinQuote) =
      Except.ok
        { title := "Bitcoin (BTC)"
          priceMetric := "$50,000"
          volumeMetric := "$1,000,000"
          marketCapMetric := "$900,000,000,000"
          report := "The current price of Bitcoin is $50,000. The 24-hour trading volume is $1,000,000, and the market capitalization is $900,000,000,000." } := by
  have hr := render_bitcoin_response "Bitcoin" "BTC" bitcoinQuote
    (PyNum.int 50000) (PyNum.int 1000000) (PyNum.int 900000000000) rfl rfl rfl
  rw [hr]
  simp only [report_text, format_fifty_thousand, format_one_million,
    format_ninehundred_billion]
  rfl

/-- In a cache coherent with `f`, a hit for arguments `a` returns `f a`. -/
theorem cacheLookup_coherent {α β : Type} [DecidableEq α] (ttl : ℕ) (f : α → β)
    (s : CacheState α β) (now : ℕ) (a : α) (v : β) (hcoh : Coherent f s)
    (h : cacheLookup ttl s now a = some v) : v = f a := by
  unfold cacheLookup at h
  cases hf : s.entries.find? fun e => decide (e.1 = a) && decide (now < e.2.2 + ttl) with
  | none => rw [hf] at h; simp at h
  | some e =>
    rw [hf] at h
    simp at h
    have hpe := List.find?_some hf
    have hme := List.mem_of_find?_eq_some hf
    have ha : e.1 = a := of_decide_eq_true ((Bool.and_eq_true _ _).mp hpe).1
    rw [← h, ← ha]
    exact hcoh e hme

/-- A fresh cache entry stored at `t1` answers a repeat call at any
`t2 < t1 + ttl`. -/
theorem cacheLookup_fresh {α β : Type} [DecidableEq α] (ttl : ℕ)
    (es : List (α × β × ℕ)) (t1 t2 : ℕ) (a : α) (v : β) (h : t2 < t1 + ttl) :
    cacheLookup ttl ⟨(a, v, t1) :: es⟩ t2 a = some v := by
  unfold cacheLookup
  rw [List.find?_cons_of_pos]
  · rfl
  · simp [h]

/-- C7: two memoized calls with identical arguments within one
memoization window (the fixed TTL of the fetchers, 60 seconds in this
version) return identical results — the value of the fetch — and issue at
most one outbound request between them; the property is stated for the
TTL of either fetcher. -/
theorem memoized_window {α β : Type} [DecidableEq α] (ttl : ℕ) (f : α → β)
    (s : CacheState α β) (t1 t2 : ℕ) (a : α)
    (_httl : ttl = get_crypto_data_ttl ∨ ttl = get_historical_data_ttl)
    (hcoh : Coherent f s) (_h1 : t1 ≤ t2) (h2 : t2 < t1 + ttl) :
    (twoCalls ttl f s t1 t2 a).1 = f a ∧
    (twoCalls ttl f s t1 t2 a).2.1 = f a ∧
    ((twoCalls ttl f s t1 t2 a).2.2.1 = false ∨
      (twoCalls ttl f s t1 t2 a).2.2.2 = false) := by
  unfold twoCalls cachedCall
  cases hl : cacheLookup ttl s t1 a with
  | some v =>
    have hv := cacheLookup_coherent ttl f s t1 a v hcoh hl
    cases hl2 : cacheLookup ttl s t2 a with
    | some w =>
      have hw := cacheLookup_coherent ttl f s t2 a w hcoh hl2
      simp [hl, hl2, hv, hw]
    | none => simp [hl, hl2, hv]
  | none =>
    have hl2 : cacheLookup ttl ⟨(a, f a, t1) :: s.entries⟩ t2 a = some (f a) :=
      cacheLookup_fresh ttl s.entries t1 t2 a (f a) h2
    simp [hl, hl2]

/-- Witness for C7: starting from an empty cache, calls at times 0 and 59
with the same argument both return the fetched value and issue at most
one request. -/
theorem memoized_window_witness :
    (twoCalls 60 (fun _ : ℕ => (42 : ℕ)) ⟨[]⟩ 0 59 7).1 = 42 ∧
    (twoCalls 60 (fun _ : ℕ => (42 : ℕ)) ⟨[]⟩ 0 59 7).2.1 = 42 ∧
    ((twoCalls 60 (fun _ : ℕ => (42 : ℕ)) ⟨[]⟩ 0 59 7).2.2.1 = false ∨
      (twoCalls 60 (fun _ : ℕ => (42 : ℕ)) ⟨[]⟩ 0 59 7).2.2.2 = false) :=
  memoized_window 60 (fun _ => 42) ⟨[]⟩ 0 59 7 (Or.inl rfl)
    (by intro e he; simp at he) (by omega) (by omega)
